import Mathlib

/-!
Shallow embedding of the developer-tools agent (`src/dev_tools/agent.py`,
`src/dev_tools/schema.py`): the operation executors `run_formatter_linter`,
`run_unit_tests`, `check_git_status`, the dispatch boundary `call_function`,
and the function-call chain of `run_openai_chat_loop`.

External subprocess invocations are modelled by an environment
`List String → ProcOutcome` mapping a command line to what `subprocess.run`
did for it: normal completion (with captured stdout, stderr and return code),
`subprocess.TimeoutExpired`, or any other exception (with its message).
Each executor additionally reports the list of subprocess invocations it
performed (command line plus the timeout passed to `subprocess.run`).

Python string primitives used by the source (`str.splitlines`, `str.strip`,
`str.split()`, `str.startswith`, substring membership `in`) are re-implemented
by structural recursion on character lists so that all definitions evaluate
inside the kernel.  `splitlines` is modelled for LF line boundaries, and
`strip`/`split()` use `Char.isWhitespace`, which agrees with Python's
whitespace set on the ASCII texts involved here.
-/

namespace DevTools

/-- Does `s` begin with `pre`? (Python `str.startswith`, on char lists.) -/
def beginsWith : List Char → List Char → Bool
  | [], _ => true
  | _ :: _, [] => false
  | p :: ps, c :: cs => p == c && beginsWith ps cs

/-- Does `s` contain `sub` as a contiguous substring? (Python `sub in s`.) -/
def hasSub : List Char → List Char → Bool
  | [], sub => sub.isEmpty
  | c :: cs, sub => beginsWith sub (c :: cs) || hasSub cs sub

/-- Python `sub in s` on strings. -/
def pyContains (s sub : String) : Bool :=
  hasSub s.toList sub.toList

/-- Python `s.startswith(pre)` on strings. -/
def pyStartsWith (s pre : String) : Bool :=
  beginsWith pre.toList s.toList

/-- Python `s.strip()`: drop leading and trailing whitespace. -/
def pyStrip (s : String) : String :=
  String.mk (((s.toList.dropWhile Char.isWhitespace).reverse.dropWhile
    Char.isWhitespace).reverse)

/-- Helper for `splitlines`: `acc` holds the current line, reversed. -/
def splitlinesAux : List Char → List Char → List String
  | [], acc => if acc.isEmpty then [] else [String.mk acc.reverse]
  | c :: cs, acc =>
    if c = '\n' then String.mk acc.reverse :: splitlinesAux cs []
    else splitlinesAux cs (c :: acc)

/-- Python `s.splitlines()` for LF line boundaries: no trailing empty line. -/
def splitlines (s : String) : List String :=
  splitlinesAux s.toList []

/-- Helper for `pySplit`: `acc` holds the current token, reversed. -/
def pySplitAux : List Char → List Char → List String
  | [], acc => if acc.isEmpty then [] else [String.mk acc.reverse]
  | c :: cs, acc =>
    if c.isWhitespace then
      if acc.isEmpty then pySplitAux cs []
      else String.mk acc.reverse :: pySplitAux cs []
    else pySplitAux cs (c :: acc)

/-- Python `s.split()` with no separator: whitespace runs, no empty tokens. -/
def pySplit (s : String) : List String :=
  pySplitAux s.toList []

/-- What `subprocess.run` did for one command: normal completion with captured
streams and return code, `subprocess.TimeoutExpired`, or any other exception
(`launchFailure` carries `str(exc)`). -/
inductive ProcOutcome where
  | completed (stdout stderr : String) (returncode : Int)
  | timedOut
  | launchFailure (msg : String)
deriving DecidableEq, Repr

/-- `true` unless the process completed (i.e. `subprocess.run` raised). -/
def ProcOutcome.isFailure : ProcOutcome → Bool
  | .completed _ _ _ => false
  | _ => true

/-- The environment answering each subprocess invocation by command line. -/
abbrev ProcEnv := List String → ProcOutcome

/-- One `subprocess.run` invocation: its command line and its `timeout=`
argument in seconds. -/
structure Launch where
  cmd : List String
  timeoutSecs : Nat
deriving DecidableEq, Repr

/-- `RunFormatterLinterResponse` of `schema.py`. -/
structure RunFormatterLinterResponse where
  success : Bool
  black_output : String
  pylint_output : String
deriving DecidableEq, Repr

/-- `RunUnitTestsResponse` of `schema.py`. -/
structure RunUnitTestsResponse where
  success : Bool
  summary : String
  failed_tests : List String
deriving DecidableEq, Repr

/-- `CheckGitStatusResponse` of `schema.py`: note it has no `success` field. -/
structure CheckGitStatusResponse where
  uncommitted_files : List String
  has_uncommitted : Bool
deriving DecidableEq, Repr

/-- Python `x or d` for an optional string: both `None` and `""` are falsy. -/
def orDefault (x : Option String) (d : String) : String :=
  match x with
  | Option.none => d
  | Option.some s => if s = "" then d else s

/-- The command line `["black", request.path or "."]`. -/
def blackCmd (path : Option String) : List String :=
  ["black", orDefault path "."]

/-- The command line `["pylint", "--ignore=.venv", request.path or "src"]`. -/
def pylintCmd (path : Option String) : List String :=
  ["pylint", "--ignore=.venv", orDefault path "src"]

/-- The command line for `unittest discover`. -/
def unittestCmd (test_path : Option String) : List String :=
  ["python", "-m", "unittest", "discover", "-s", orDefault test_path "tests"]

/-- The command line `["git", "-C", ".", "status", "--porcelain"]`. -/
def gitStatusCmd : List String :=
  ["git", "-C", ".", "status", "--porcelain"]

/-- `DevToolsAgent.run_formatter_linter`: runs black then pylint (each with
`timeout=10`), combines each process's stdout and stderr, turns a timeout or
any other exception of either run into an `Error ...` text, and reports
success iff neither combined text contains `"Error"`.  Returns the response
together with the subprocess invocations performed. -/
def run_formatter_linter (env : ProcEnv) (path : Option String) :
    RunFormatterLinterResponse × List Launch :=
  let black_output :=
    match env (blackCmd path) with
    | .completed out err _ => out ++ err
    | .timedOut => "Error: black timed out after 10 seconds."
    | .launchFailure exc => "Error running black: " ++ exc
  let pylint_output :=
    match env (pylintCmd path) with
    | .completed out err _ => out ++ err
    | .timedOut => "Error: pylint timed out after 10 seconds."
    | .launchFailure exc => "Error running pylint: " ++ exc
  let success := !pyContains black_output "Error" && !pyContains pylint_output "Error"
  (⟨success, pyStrip black_output, pyStrip pylint_output⟩,
   [⟨blackCmd path, 10⟩, ⟨pylintCmd path, 10⟩])

/-- `re.search(r"(\d+ tests? in [\d.]+s)\)?", output)` at one start position:
returns the characters of capture group 1 when the pattern matches here.
Each greedy element (`\d+`, optional `s`, `[\d.]+`) is followed by a literal
it cannot consume, so maximal munch is exact and no backtracking is needed. -/
def matchSummaryAt (chars : List Char) : Option (List Char) :=
  let ds := chars.takeWhile Char.isDigit
  if ds.isEmpty then Option.none else
  let r0 := chars.drop ds.length
  if beginsWith " test".toList r0 then
    let r1 := r0.drop 5
    let (sPart, r2) :=
      match r1 with
      | 's' :: rest => (['s'], rest)
      | _ => (([] : List Char), r1)
    if beginsWith " in ".toList r2 then
      let r3 := r2.drop 4
      let num := r3.takeWhile (fun c => c.isDigit || c = '.')
      if num.isEmpty then Option.none
      else
        match r3.drop num.length with
        | 's' :: _ =>
          Option.some (ds ++ " test".toList ++ sPart ++ " in ".toList ++ num ++ ['s'])
        | _ => Option.none
    else Option.none
  else Option.none

/-- `re.search` scan: first (leftmost) position where the summary pattern
matches. -/
def findSummary : List Char → Option String
  | [] => Option.none
  | c :: cs =>
    match matchSummaryAt (c :: cs) with
    | Option.some m => Option.some (String.mk m)
    | Option.none => findSummary cs

/-- The `summary` field derived from the test runner's combined output. -/
def summaryOf (output : String) : String :=
  (findSummary output.toList).getD "Tests completed."

/-- `DevToolsAgent.run_unit_tests`: one subprocess with `timeout=30`; on
completion, parses the summary by regex search, collects the stripped lines
starting with `FAIL:` or `ERROR:`, and reports success iff the return code is
zero; a timeout or any other exception yields a `success=False` response. -/
def run_unit_tests (env : ProcEnv) (test_path : Option String) :
    RunUnitTestsResponse × List Launch :=
  let resp :=
    match env (unittestCmd test_path) with
    | .completed out err rc =>
      let output := out ++ err
      let failed_tests := (splitlines output).foldl
        (fun acc line =>
          if pyStartsWith line "FAIL:" || pyStartsWith line "ERROR:" then
            acc ++ [pyStrip line]
          else acc) []
      ⟨rc == 0, summaryOf output, failed_tests⟩
    | .timedOut =>
      ⟨false, "Error: unit tests timed out after 30 seconds.", []⟩
    | .launchFailure exc =>
      ⟨false, "Error running unit tests: " ++ exc, []⟩
  (resp, [⟨unittestCmd test_path, 30⟩])

/-- `DevToolsAgent.check_git_status`: one subprocess with `timeout=10`; on
completion parses only stdout, keeping from each line with two
whitespace-separated tokens the second, and from each line with more than two
the last; a timeout or any other exception yields the same empty response as
a clean tree. -/
def check_git_status (env : ProcEnv) : CheckGitStatusResponse × List Launch :=
  let resp :=
    match env gitStatusCmd with
    | .completed out _ _ =>
      let uncommitted_files := (splitlines out).foldl
        (fun acc line =>
          let parts := pySplit (pyStrip line)
          if parts.length == 2 then acc ++ parts.drop 1
          else if parts.length > 2 then acc ++ (parts.getLast?).toList
          else acc) []
      ⟨uncommitted_files, !uncommitted_files.isEmpty⟩
    | .timedOut => ⟨[], false⟩
    | .launchFailure _ => ⟨[], false⟩
  (resp, [⟨gitStatusCmd, 10⟩])

/-- A JSON-decoded Python value as it appears in the `arguments` mapping of a
function call (the scalar fragment used by these operations). -/
inductive PyVal where
  | str (s : String)
  | int (n : Int)
  | boolean (b : Bool)
  | null
deriving DecidableEq, Repr

/-- The untyped `arguments: Dict[str, Any]` of `call_function`. -/
abbrev Args := List (String × PyVal)

/-- First value bound to `key`, if any. -/
def lookupArg (args : Args) (key : String) : Option PyVal :=
  (args.find? (fun kv => kv.1 = key)).map (fun kv => kv.2)

/-- pydantic v2 validation of an `Optional[str] = Field(None, ...)` field:
a missing key or explicit `None` selects the default `None`, a string is
accepted, and any other value raises a `ValidationError` naming the field.
Extra keys are ignored (default `model_config`). -/
def validateOptStr (args : Args) (field : String) :
    Except String (Option String) :=
  match lookupArg args field with
  | Option.none => .ok Option.none
  | Option.some .null => .ok Option.none
  | Option.some (.str s) => .ok (Option.some s)
  | Option.some _ => .error field

/-- An exception escaping `call_function`: the `ValueError` it raises for an
unknown name, or a pydantic `ValidationError` naming the offending field. -/
inductive PyErr where
  | valueError (msg : String)
  | validationError (field : String)
deriving DecidableEq, Repr

/-- The typed response returned by a successful dispatch. -/
inductive FnResult where
  | formatterLinter (r : RunFormatterLinterResponse)
  | unitTests (r : RunUnitTestsResponse)
  | gitStatus (r : CheckGitStatusResponse)
deriving DecidableEq, Repr

/-- `DevToolsAgent.call_function`: dispatch by name.  A known name first
validates the arguments into the request model (a pydantic `ValidationError`
escapes as `.error`), then runs the operation; an unknown name raises
`ValueError(f"Unknown function: \x7bfunction_name\x7d")`.  The second
component is the list of subprocess invocations performed. -/
def call_function (env : ProcEnv) (function_name : String) (arguments : Args) :
    Except PyErr FnResult × List Launch :=
  if function_name = "run_formatter_linter" then
    match validateOptStr arguments "path" with
    | .error f => (.error (.validationError f), [])
    | .ok path =>
      let (r, ls) := run_formatter_linter env path
      (.ok (.formatterLinter r), ls)
  else if function_name = "run_unit_tests" then
    match validateOptStr arguments "test_path" with
    | .error f => (.error (.validationError f), [])
    | .ok p =>
      let (r, ls) := run_unit_tests env p
      (.ok (.unitTests r), ls)
  else if function_name = "check_git_status" then
    let (r, ls) := check_git_status env
    (.ok (.gitStatus r), ls)
  else
    (.error (.valueError ("Unknown function: " ++ function_name)), [])

/-- JSON string escaping (the characters relevant to these payloads). -/
def escapeJsonChar (c : Char) : String :=
  if c = '"' then "\\\"" else if c = '\\' then "\\\\"
  else if c = '\n' then "\\n" else String.singleton c

/-- JSON rendering of a string. -/
def jsonOfString (s : String) : String :=
  "\"" ++ String.join (s.toList.map escapeJsonChar) ++ "\""

/-- JSON rendering of a boolean. -/
def jsonOfBool (b : Bool) : String :=
  if b then "true" else "false"

/-- JSON rendering of a list of strings. -/
def jsonOfStrings (xs : List String) : String :=
  "[" ++ String.intercalate ", " (xs.map jsonOfString) ++ "]"

/-- `json.dumps(result.dict(), indent=2)` of the chat loop, modelled as a
single-line JSON rendering of the response's fields; the theorems below
depend only on which turn carries this text, not on its exact shape. -/
def serializeResult : FnResult → String
  | .formatterLinter r =>
    "\x7b\"success\": " ++ jsonOfBool r.success ++
    ", \"black_output\": " ++ jsonOfString r.black_output ++
    ", \"pylint_output\": " ++ jsonOfString r.pylint_output ++ "\x7d"
  | .unitTests r =>
    "\x7b\"success\": " ++ jsonOfBool r.success ++
    ", \"summary\": " ++ jsonOfString r.summary ++
    ", \"failed_tests\": " ++ jsonOfStrings r.failed_tests ++ "\x7d"
  | .gitStatus r =>
    "\x7b\"uncommitted_files\": " ++ jsonOfStrings r.uncommitted_files ++
    ", \"has_uncommitted\": " ++ jsonOfBool r.has_uncommitted ++ "\x7d"

/-- One entry of the `messages` list of `run_openai_chat_loop`. -/
inductive Turn where
  | system (content : String)
  | user (content : String)
  | assistant (content : String)
  | toolResult (name : String) (content : String)
deriving DecidableEq, Repr

/-- One response of the intent source (the mocked
`openai.chat.completions.create`): either a function call or a plain
assistant message carrying a `finish_reason`. -/
inductive IntentResponse where
  | functionCall (name : String) (args : Args)
  | assistantText (content : String) (finish : Option String)
deriving DecidableEq, Repr

/-- The function-call chain of one user turn of `run_openai_chat_loop`
(agent.py lines 228-264): the script lists the successive responses of the
intent source for this turn.  While the response is a function call, the call
is dispatched, exactly one `role="function"` turn carrying the serialized
result is appended, and only then is the next response consumed; a plain
response is appended as the assistant turn and ends the turn.  An exception
raised by `call_function` escapes the loop (`.error`).  A well-formed script
reaches a plain response; an exhausted script returns the messages as they
stand.  The second component collects the subprocess invocations in order. -/
def processTurn (env : ProcEnv) :
    List IntentResponse → List Turn → Except PyErr (List Turn × List Launch)
  | [], messages => .ok (messages, [])
  | .assistantText content _ :: _, messages =>
    .ok (messages ++ [.assistant content], [])
  | .functionCall name args :: rest, messages =>
    match call_function env name args with
    | (.error e, _) => .error e
    | (.ok r, ls) =>
      match processTurn env rest (messages ++ [.toolResult name (serializeResult r)]) with
      | .error e => .error e
      | .ok (m2, ls2) => .ok (m2, ls ++ ls2)

/-- An intent-source response issuing the call `c`. -/
def mkCall (c : String × Args) : IntentResponse :=
  .functionCall c.1 c.2

/-- The typed response of a dispatch known to succeed (with a placeholder
value in the unreachable error case). -/
def fnResultOf (env : ProcEnv) (c : String × Args) : FnResult :=
  match (call_function env c.1 c.2).1 with
  | .ok r => r
  | .error _ => .gitStatus ⟨[], false⟩

/-- The subprocess invocations of one dispatch. -/
def fnLaunchesOf (env : ProcEnv) (c : String × Args) : List Launch :=
  (call_function env c.1 c.2).2

/-- `sub` occurs as a contiguous substring of `s` (the specification-level
reading of Python's `sub in s`). -/
def ContainsText (s sub : String) : Prop :=
  ∃ a b, s.toList = a ++ sub.toList ++ b

/-- Environment in which every process completes silently with exit code 0. -/
def quietEnv : ProcEnv := fun _ => .completed "" "" 0

/-- Environment in which every process exceeds its deadline. -/
def timeoutEnv : ProcEnv := fun _ => .timedOut

/-- Environment whose test runner prints two `FAIL:` lines and one `ERROR:`
line yet exits with code 0. -/
def failLinesEnv : ProcEnv := fun _ =>
  .completed
    "FAIL: test_a (m.T)\nFAIL: test_b (m.T)\nERROR: test_c (m.T)\nRan 3 tests in 0.001s\n"
    "" 0

/-- Environment whose git status output is the two-line example transcript. -/
def gitExampleEnv : ProcEnv := fun _ =>
  .completed " M src/main.go\n?? new_file.go\n" "" 0

/-- Environment whose git status output is one single-token line. -/
def singleTokenEnv : ProcEnv := fun _ => .completed "x\n" "" 0

end DevTools

/-! ## Helper lemmas -/

namespace DevTools

theorem toList_append (s t : String) : (s ++ t).toList = s.toList ++ t.toList := rfl

theorem beginsWith_iff (pre s : List Char) :
    beginsWith pre s = true ↔ ∃ r, s = pre ++ r := by
  induction pre generalizing s with
  | nil => simp [beginsWith]
  | cons p ps ih =>
    cases s with
    | nil => simp [beginsWith]
    | cons c cs =>
      simp only [beginsWith, Bool.and_eq_true, beq_iff_eq, ih, List.cons_append]
      constructor
      · rintro ⟨hpc, r, hr⟩
        exact ⟨r, by rw [hpc, hr]⟩
      · rintro ⟨r, hr⟩
        injection hr with h1 h2
        exact ⟨h1.symm, r, h2⟩

theorem hasSub_iff (s sub : List Char) :
    hasSub s sub = true ↔ ∃ a b, s = a ++ sub ++ b := by
  induction s with
  | nil => cases sub <;> simp [hasSub]
  | cons c cs ih =>
    simp only [hasSub, Bool.or_eq_true, beginsWith_iff, ih]
    constructor
    · rintro (⟨r, hr⟩ | ⟨a, b, hab⟩)
      · exact ⟨[], r, by simpa using hr⟩
      · exact ⟨c :: a, b, by simp [hab]⟩
    · rintro ⟨a, b, hab⟩
      cases a with
      | nil => exact Or.inl ⟨b, by simpa using hab⟩
      | cons a0 as =>
        rw [List.cons_append, List.cons_append] at hab
        injection hab with h1 h2
        exact Or.inr ⟨as, b, by rw [h2, List.append_assoc]⟩

theorem pyContains_iff (s sub : String) :
    pyContains s sub = true ↔ ContainsText s sub :=
  hasSub_iff s.toList sub.toList

theorem pyContains_eq_false_iff (s sub : String) :
    pyContains s sub = false ↔ ¬ ContainsText s sub := by
  rw [← pyContains_iff]
  cases h : pyContains s sub <;> simp

theorem pyContains_append_left (pre exc sub : String)
    (h : pyContains pre sub = true) : pyContains (pre ++ exc) sub = true := by
  rw [pyContains_iff] at h ⊢
  obtain ⟨a, b, hab⟩ := h
  exact ⟨a, b ++ exc.toList, by rw [toList_append, hab]; simp⟩

/-- A fold that appends `f x` for each `x` satisfying `p` is `filter`-`map`. -/
theorem foldl_append_filter {α β : Type} (p : α → Bool) (f : α → β)
    (l : List α) (init : List β) :
    l.foldl (fun acc x => if p x then acc ++ [f x] else acc) init =
      init ++ (l.filter p).map f := by
  induction l generalizing init with
  | nil => simp
  | cons x xs ih =>
    by_cases hx : p x = true <;>
      simp [List.foldl_cons, List.filter_cons, hx, ih]

/-- The per-line fold of `check_git_status` is the `filterMap` that keeps the
last token of every line with at least two tokens. -/
theorem git_fold_eq (toks : String → List String) (lines : List String) :
    ∀ init : List String,
      lines.foldl (fun acc line =>
          if (toks line).length == 2 then acc ++ (toks line).drop 1
          else if (toks line).length > 2 then acc ++ ((toks line).getLast?).toList
          else acc) init =
        init ++ lines.filterMap (fun line =>
          if 2 ≤ (toks line).length then (toks line).getLast? else Option.none) := by
  induction lines with
  | nil => intro init; simp
  | cons l ls ih =>
    intro init
    rw [List.foldl_cons, List.filterMap_cons, ih]
    rcases hp : toks l with _ | ⟨a, _ | ⟨b, _ | ⟨c, rs⟩⟩⟩
    · simp [hp]
    · simp [hp]
    · simp [hp]
    · cases hlast : (a :: b :: c :: rs).getLast? with
      | none => simp at hlast
      | some x => simp [hp, hlast]

/-- When a run of black fails (timeout or launch failure), its output text
contains `"Error"`, so the formatter/linter response reports failure. -/
theorem formatter_black_failure (env : ProcEnv) (path : Option String)
    (h : (env (blackCmd path)).isFailure = true) :
    ((run_formatter_linter env path).1).success = false := by
  cases hb : env (blackCmd path) with
  | completed out err rc => rw [hb] at h; simp [ProcOutcome.isFailure] at h
  | timedOut =>
    have hc : pyContains "Error: black timed out after 10 seconds." "Error" = true := by decide
    simp [run_formatter_linter, hb, hc]
  | launchFailure exc =>
    have hc : pyContains ("Error running black: " ++ exc) "Error" = true :=
      pyContains_append_left "Error running black: " exc "Error" (by decide)
    simp [run_formatter_linter, hb, hc]

/-- When a run of pylint fails, its output text contains `"Error"`, so the
formatter/linter response reports failure. -/
theorem formatter_pylint_failure (env : ProcEnv) (path : Option String)
    (h : (env (pylintCmd path)).isFailure = true) :
    ((run_formatter_linter env path).1).success = false := by
  cases hb : env (pylintCmd path) with
  | completed out err rc => rw [hb] at h; simp [ProcOutcome.isFailure] at h
  | timedOut =>
    have hc : pyContains "Error: pylint timed out after 10 seconds." "Error" = true := by decide
    simp [run_formatter_linter, hb, hc]
  | launchFailure exc =>
    have hc : pyContains ("Error running pylint: " ++ exc) "Error" = true :=
      pyContains_append_left "Error running pylint: " exc "Error" (by decide)
    simp [run_formatter_linter, hb, hc]

end DevTools

/-! ## Claim theorems -/

namespace DevTools

/-- C1 (counterexample): calling the dispatch boundary with a known operation
but an ill-typed argument (`test_path` bound to a boolean) raises a pydantic
`ValidationError` out of `call_function` — it does not return an outcome with
`success=false`, refuting the claim that no unhandled exception escapes this
boundary. -/
theorem dispatch_boundary_counterexample :
    (call_function quietEnv "run_unit_tests" [("test_path", PyVal.boolean true)]).1 =
      .error (.validationError "test_path") := by
  rfl

/-- C1 (amended): dispatch returns a typed response exactly for known
operation names whose arguments validate; the exceptions that escape the
boundary are the `ValueError` for an unknown name and the pydantic
`ValidationError` for ill-typed arguments.  Inside the boundary, the
operation methods convert every process failure into a returned response:
the formatter/linter and unit-test responses report `success=false`, and
`check_git_status` returns the empty response (its type has no success
field). -/
theorem dispatch_boundary_behavior (env : ProcEnv) (name : String) (args : Args) :
    (((call_function env name args).1).isOk = true ↔
      ((name = "run_formatter_linter" ∧ (validateOptStr args "path").isOk = true) ∨
       (name = "run_unit_tests" ∧ (validateOptStr args "test_path").isOk = true) ∨
       name = "check_git_status")) ∧
    (∀ path : Option String, (env (blackCmd path)).isFailure = true →
      ((run_formatter_linter env path).1).success = false) ∧
    (∀ path : Option String, (env (pylintCmd path)).isFailure = true →
      ((run_formatter_linter env path).1).success = false) ∧
    (∀ tp : Option String, (env (unittestCmd tp)).isFailure = true →
      ((run_unit_tests env tp).1).success = false) ∧
    ((env gitStatusCmd).isFailure = true → (check_git_status env).1 = ⟨[], false⟩) := by
  refine ⟨?_, formatter_black_failure env, formatter_pylint_failure env, ?_, ?_⟩
  · by_cases h1 : name = "run_formatter_linter"
    · subst h1
      cases hv : validateOptStr args "path" <;>
        simp [call_function, hv, Except.isOk, Except.toBool]
    · by_cases h2 : name = "run_unit_tests"
      · subst h2
        cases hv : validateOptStr args "test_path" <;>
          simp [call_function, hv, Except.isOk, Except.toBool]
      · by_cases h3 : name = "check_git_status"
        · subst h3
          simp [call_function, Except.isOk, Except.toBool]
        · simp [call_function, h1, h2, h3, Except.isOk, Except.toBool]
  · intro tp h
    cases ht : env (unittestCmd tp) with
    | completed out err rc => rw [ht] at h; simp [ProcOutcome.isFailure] at h
    | timedOut => simp [run_unit_tests, ht]
    | launchFailure exc => simp [run_unit_tests, ht]
  · intro h
    cases ht : env gitStatusCmd with
    | completed out err rc => rw [ht] at h; simp [ProcOutcome.isFailure] at h
    | timedOut => simp [check_git_status, ht]
    | launchFailure exc => simp [check_git_status, ht]

/-- C1 (witness): instance of the amended theorem at the all-timeout
environment and the status-query operation. -/
theorem dispatch_boundary_behavior_witness :
    ((call_function timeoutEnv "check_git_status" []).1).isOk = true ∧
    (check_git_status timeoutEnv).1 = ⟨[], false⟩ :=
  ⟨((dispatch_boundary_behavior timeoutEnv "check_git_status" []).1).mpr
      (Or.inr (Or.inr rfl)),
   (dispatch_boundary_behavior timeoutEnv "check_git_status" []).2.2.2.2 rfl⟩

end DevTools

namespace DevTools

/-- C2 (counterexample): for the unknown name `not_a_function`, the dispatch
raises `ValueError("Unknown function: not_a_function")` — the `.error` escapes
`call_function` instead of an outcome with `success=false` being returned —
and performs no subprocess launch (second component `[]`). -/
theorem unknown_name_counterexample :
    call_function quietEnv "not_a_function" [] =
      (.error (.valueError "Unknown function: not_a_function"), []) := by
  rfl

/-- C2 (amended): for every operation name other than the three registered
ones and every argument mapping, `call_function` raises
`ValueError("Unknown function: <name>")` naming the unrecognized operation
(rather than returning an outcome), and performs no argument coercion and no
process launch. -/
theorem unknown_name_raises (env : ProcEnv) (name : String) (args : Args)
    (h1 : name ≠ "run_formatter_linter") (h2 : name ≠ "run_unit_tests")
    (h3 : name ≠ "check_git_status") :
    call_function env name args =
      (.error (.valueError ("Unknown function: " ++ name)), []) := by
  simp [call_function, h1, h2, h3]

/-- C2 (witness): the amended theorem applied to `frobnicate`. -/
theorem unknown_name_raises_witness :
    call_function quietEnv "frobnicate" [("x", PyVal.int 1)] =
      (.error (.valueError ("Unknown function: " ++ "frobnicate")), []) :=
  unknown_name_raises quietEnv "frobnicate" [("x", PyVal.int 1)]
    (by decide) (by decide) (by decide)

/-- C3 (counterexample): for the known operation `run_formatter_linter` with
`path` bound to the integer 3 (wrong type), a pydantic `ValidationError`
naming `path` is raised out of the Executor — no outcome with `success=false`
is returned — though indeed no process is launched. -/
theorem invalid_arguments_counterexample :
    call_function quietEnv "run_formatter_linter" [("path", PyVal.int 3)] =
      (.error (.validationError "path"), []) := by
  rfl

/-- C3 (amended): for a known operation whose arguments fail the argument
contract, a `ValidationError` naming the offending field is raised out of
`call_function` (it is not returned as an outcome) and no process is
launched.  No contract has a required field without a default: a missing
field always validates to the default `None`, and `check_git_status`
(whose request model has no fields) accepts every argument mapping. -/
theorem invalid_arguments_raise (env : ProcEnv) (args : Args) :
    (∀ f, validateOptStr args "path" = .error f →
      call_function env "run_formatter_linter" args =
        (.error (.validationError f), [])) ∧
    (∀ f, validateOptStr args "test_path" = .error f →
      call_function env "run_unit_tests" args =
        (.error (.validationError f), [])) ∧
    (∀ field, lookupArg args field = Option.none →
      validateOptStr args field = .ok Option.none) ∧
    ((call_function env "check_git_status" args).1).isOk = true := by
  refine ⟨?_, ?_, ?_, ?_⟩
  · intro f h
    simp [call_function, h]
  · intro f h
    simp [call_function, h]
  · intro field h
    simp [validateOptStr, h]
  · rfl

/-- C3 (witness): the amended theorem applied with `test_path` bound to a
boolean and with the field `path` absent. -/
theorem invalid_arguments_raise_witness :
    call_function quietEnv "run_unit_tests" [("test_path", PyVal.boolean false)] =
      (.error (.validationError "test_path"), []) ∧
    validateOptStr [("test_path", PyVal.boolean false)] "path" = .ok Option.none :=
  ⟨(invalid_arguments_raise quietEnv [("test_path", PyVal.boolean false)]).2.1
      "test_path" rfl,
   (invalid_arguments_raise quietEnv [("test_path", PyVal.boolean false)]).2.2.1
      "path" rfl⟩

/-- C4 (counterexample): when the git status process exceeds its deadline the
operation returns a response identical to the one for a clean tree — the
response type has no `success` field and carries no text mentioning the
timeout value, refuting the claim for the status-query operation. -/
theorem git_timeout_counterexample :
    (check_git_status timeoutEnv).1 = (check_git_status quietEnv).1 := by
  rfl

/-- C4 (amended): on a deadline overrun, `run_formatter_linter` reports
`success=false` with the overrunning tool's output text stating the 10-second
timeout, and `run_unit_tests` returns `success=false` with a summary stating
the 30-second timeout; `check_git_status`, however, swallows its timeout and
returns the empty response, indistinguishable from a clean tree. -/
theorem timeout_reporting (env : ProcEnv) (path tp : Option String) :
    (env (blackCmd path) = .timedOut →
      ((run_formatter_linter env path).1).success = false ∧
      ((run_formatter_linter env path).1).black_output =
        "Error: black timed out after 10 seconds.") ∧
    (env (pylintCmd path) = .timedOut →
      ((run_formatter_linter env path).1).success = false ∧
      ((run_formatter_linter env path).1).pylint_output =
        "Error: pylint timed out after 10 seconds.") ∧
    (env (unittestCmd tp) = .timedOut →
      (run_unit_tests env tp).1 =
        ⟨false, "Error: unit tests timed out after 30 seconds.", []⟩) ∧
    (env gitStatusCmd = .timedOut → (check_git_status env).1 = ⟨[], false⟩) := by
  refine ⟨?_, ?_, ?_, ?_⟩
  · intro h
    refine ⟨formatter_black_failure env path (by rw [h]; rfl), ?_⟩
    simp [run_formatter_linter, h]
    decide
  · intro h
    refine ⟨formatter_pylint_failure env path (by rw [h]; rfl), ?_⟩
    simp [run_formatter_linter, h]
    decide
  · intro h
    simp [run_unit_tests, h]
  · intro h
    simp [check_git_status, h]

/-- C4 (witness): the timeout-reporting theorem at the all-timeout
environment. -/
theorem timeout_reporting_witness :
    ((run_formatter_linter timeoutEnv Option.none).1).success = false ∧
    (run_unit_tests timeoutEnv Option.none).1 =
      ⟨false, "Error: unit tests timed out after 30 seconds.", []⟩ :=
  ⟨((timeout_reporting timeoutEnv Option.none Option.none).1 rfl).1,
   (timeout_reporting timeoutEnv Option.none Option.none).2.2.1 rfl⟩

end DevTools

namespace DevTools

/-- C5 (confirmed): throughout one user turn of the orchestration loop, for
any chain of valid invocations followed by a plain response, the conversation
state is only extended by appending — the result equals the prior messages
followed by the new turns — and each invocation contributes exactly one
tool-result turn, appended in strict request order (the k-th result turn is in
place before the (k+1)-th intent response is consumed), with the turn ending
in a single plain assistant turn. -/
theorem chain_appends_in_order (env : ProcEnv)
    (calls : List (String × Args)) (content : String) (finish : Option String)
    (rest : List IntentResponse) (messages : List Turn)
    (hvalid : ∀ c ∈ calls, ((call_function env c.1 c.2).1).isOk = true) :
    processTurn env
        (calls.map mkCall ++ IntentResponse.assistantText content finish :: rest)
        messages =
      .ok (messages ++
            calls.map (fun c =>
              Turn.toolResult c.1 (serializeResult (fnResultOf env c))) ++
            [Turn.assistant content],
          (calls.map (fnLaunchesOf env)).flatten) := by
  induction calls generalizing messages with
  | nil => simp [processTurn]
  | cons c cs ih =>
    have hc := hvalid c (List.mem_cons_self c cs)
    simp only [List.map_cons, List.cons_append, processTurn]
    cases hcf : call_function env c.1 c.2 with
    | mk res ls =>
      cases res with
      | error e =>
        rw [hcf] at hc
        simp [Except.isOk, Except.toBool] at hc
      | ok r =>
        have hres : fnResultOf env c = r := by
          simp [fnResultOf, hcf]
        have hls : fnLaunchesOf env c = ls := by
          simp [fnLaunchesOf, hcf]
        have ih2 := ih (messages ++ [Turn.toolResult c.1 (serializeResult r)])
          (fun d hd => hvalid d (List.mem_cons_of_mem c hd))
        simp only [List.append_eq]
        rw [ih2]
        simp [hres, hls, List.append_assoc]

/-- C5 (witness): the chain theorem at a concrete one-call session. -/
theorem chain_appends_in_order_witness :
    processTurn quietEnv
        ([("check_git_status", ([] : Args))].map mkCall ++
          IntentResponse.assistantText "done" (Option.some "stop") :: [])
        [Turn.system "s"] =
      .ok ([Turn.system "s"] ++
            [("check_git_status", ([] : Args))].map (fun c =>
              Turn.toolResult c.1 (serializeResult (fnResultOf quietEnv c))) ++
            [Turn.assistant "done"],
          ([("check_git_status", ([] : Args))].map (fnLaunchesOf quietEnv)).flatten) :=
  chain_appends_in_order quietEnv [("check_git_status", [])] "done"
    (Option.some "stop") [] [Turn.system "s"]
    (by
      intro c hc
      rw [List.mem_singleton] at hc
      subst hc
      rfl)

/-- C6 (counterexample): the session in which the intent source issues the
formatter invocation, then the status-query invocation, then a plain
response, performs three subprocess launches — `black`, `pylint` and `git`
— not two: the formatter operation alone launches two processes. -/
theorem two_call_session_three_launches :
    (processTurn quietEnv
        [mkCall ("run_formatter_linter", []), mkCall ("check_git_status", []),
         IntentResponse.assistantText "All done!" (Option.some "stop")]
        [Turn.system "s", Turn.user "Format and check git"]).map
      (fun p => p.2.map Launch.cmd) =
      .ok [["black", "."], ["pylint", "--ignore=.venv", "src"],
           ["git", "-C", ".", "status", "--porcelain"]] ∧
    ([["black", "."], ["pylint", "--ignore=.venv", "src"],
      ["git", "-C", ".", "status", "--porcelain"]] : List (List String)).length ≠ 2 := by
  constructor
  · rfl
  · decide

/-- C6 (amended): a session of exactly the two chained invocations (formatter,
then status query) followed by a plain response performs exactly two operation
dispatches but three subprocess launches (black and pylint for the formatter
operation, then git), appends exactly two tool-result turns in that order, and
ends the turn with a plain-text assistant turn, with no further invocation. -/
theorem two_call_session_characterization (env : ProcEnv) (content : String)
    (finish : Option String) (messages : List Turn) :
    processTurn env
        [mkCall ("run_formatter_linter", []), mkCall ("check_git_status", []),
         IntentResponse.assistantText content finish] messages =
      .ok (messages ++
            [Turn.toolResult "run_formatter_linter"
               (serializeResult (.formatterLinter (run_formatter_linter env Option.none).1)),
             Turn.toolResult "check_git_status"
               (serializeResult (.gitStatus (check_git_status env).1)),
             Turn.assistant content],
          [⟨blackCmd Option.none, 10⟩, ⟨pylintCmd Option.none, 10⟩,
           ⟨gitStatusCmd, 10⟩]) := by
  simp [processTurn, mkCall, call_function, validateOptStr, lookupArg]
  rfl

end DevTools

namespace DevTools

/-- C7 (counterexample): for a transcript with two `FAIL:` lines and one
`ERROR:` line but exit code 0, the summary lists exactly those three failing
identifiers, yet the outcome has `success=true`, not `success=false` — the
success flag comes from the exit code, not from the transcript. -/
theorem unit_test_success_counterexample :
    ((run_unit_tests failLinesEnv Option.none).1).failed_tests =
      ["FAIL: test_a (m.T)", "FAIL: test_b (m.T)", "ERROR: test_c (m.T)"] ∧
    ((run_unit_tests failLinesEnv Option.none).1).success = true := by
  constructor
  · rfl
  · rfl

/-- C7 (amended): on a completed test run, the failing-test identifiers are
exactly the (stripped) transcript lines starting with `FAIL:` or `ERROR:`,
in transcript order; `success`, however, is exactly `returncode == 0`,
independent of the transcript text. -/
theorem unit_test_parsing (env : ProcEnv) (tp : Option String)
    (out err : String) (rc : Int)
    (h : env (unittestCmd tp) = .completed out err rc) :
    ((run_unit_tests env tp).1).failed_tests =
      ((splitlines (out ++ err)).filter
        (fun line => pyStartsWith line "FAIL:" || pyStartsWith line "ERROR:")).map pyStrip ∧
    ((run_unit_tests env tp).1).success = (rc == 0) := by
  constructor
  · simp only [run_unit_tests, h]
    rw [foldl_append_filter
      (fun line => pyStartsWith line "FAIL:" || pyStartsWith line "ERROR:") pyStrip]
    simp
  · simp [run_unit_tests, h]

/-- C7 (witness): the parsing theorem at the concrete transcript with two
`FAIL:` lines, one `ERROR:` line and exit code 0. -/
theorem unit_test_parsing_witness :
    ((run_unit_tests failLinesEnv Option.none).1).failed_tests =
      ((splitlines
          ("FAIL: test_a (m.T)\nFAIL: test_b (m.T)\nERROR: test_c (m.T)\nRan 3 tests in 0.001s\n"
            ++ "")).filter
        (fun line => pyStartsWith line "FAIL:" || pyStartsWith line "ERROR:")).map pyStrip ∧
    ((run_unit_tests failLinesEnv Option.none).1).success = ((0 : Int) == 0) :=
  unit_test_parsing failLinesEnv Option.none
    "FAIL: test_a (m.T)\nFAIL: test_b (m.T)\nERROR: test_c (m.T)\nRan 3 tests in 0.001s\n"
    "" 0 rfl

/-- C8 (counterexample): for the status transcript `"x\n"`, whose single line
has only one whitespace-separated token, the parser does not take that last
token as a path — the line is skipped entirely, so the parsed set is empty
rather than `\x7bx\x7d`. -/
theorem git_single_token_counterexample :
    (check_git_status singleTokenEnv).1 = ⟨[], false⟩ ∧
    (⟨[], false⟩ : CheckGitStatusResponse) ≠ ⟨["x"], true⟩ := by
  constructor
  · rfl
  · decide

/-- C8 (amended): on a completed status query, the parser keeps, for each
line whose stripped form has at least two whitespace-separated tokens, the
last token as a changed-file path, and skips lines with fewer than two
tokens; `has_uncommitted` is true iff the resulting list is nonempty.  The
two example transcripts behave exactly as the claim states. -/
theorem git_parsing (env : ProcEnv) (out err : String) (rc : Int)
    (h : env gitStatusCmd = .completed out err rc) :
    ((check_git_status env).1).uncommitted_files =
      (splitlines out).filterMap (fun line =>
        if 2 ≤ (pySplit (pyStrip line)).length then (pySplit (pyStrip line)).getLast?
        else Option.none) ∧
    ((check_git_status env).1).has_uncommitted =
      !((check_git_status env).1).uncommitted_files.isEmpty ∧
    (check_git_status gitExampleEnv).1 = ⟨["src/main.go", "new_file.go"], true⟩ ∧
    (check_git_status quietEnv).1 = ⟨[], false⟩ := by
  refine ⟨?_, ?_, by rfl, by rfl⟩
  · simp only [check_git_status, h]
    rw [git_fold_eq (fun line => pySplit (pyStrip line))]
    simp
  · simp [check_git_status, h]

/-- C8 (witness): the parsing theorem at the example transcript
`" M src/main.go\n?? new_file.go\n"`. -/
theorem git_parsing_witness :
    ((check_git_status gitExampleEnv).1).uncommitted_files =
      (splitlines " M src/main.go\n?? new_file.go\n").filterMap (fun line =>
        if 2 ≤ (pySplit (pyStrip line)).length then (pySplit (pyStrip line)).getLast?
        else Option.none) ∧
    ((check_git_status gitExampleEnv).1).has_uncommitted =
      !((check_git_status gitExampleEnv).1).uncommitted_files.isEmpty ∧
    (check_git_status gitExampleEnv).1 = ⟨["src/main.go", "new_file.go"], true⟩ ∧
    (check_git_status quietEnv).1 = ⟨[], false⟩ :=
  git_parsing gitExampleEnv " M src/main.go\n?? new_file.go\n" "" 0 rfl

/-- C9 (counterexample): with no path given, the second subprocess of the
formatter/linter operation runs pylint on `src`, not on the project root `.`
as the claim states for the formatter/linter default. -/
theorem pylint_default_counterexample :
    ((run_formatter_linter quietEnv Option.none).2).map Launch.cmd =
      [["black", "."], ["pylint", "--ignore=.venv", "src"]] ∧
    (["pylint", "--ignore=.venv", "src"] : List String) ≠
      ["pylint", "--ignore=.venv", "."] := by
  constructor
  · rfl
  · decide

/-- C9 (amended): the fixed per-operation timeouts are 10s (each of black and
pylint), 30s (test runner) and 10s (status query), all with stdout and stderr
captured; with no path, black defaults to `.` but pylint defaults to `src`
(with `--ignore=.venv`); the test runner defaults to `tests`; the status
query takes no arguments and always runs against the current directory
(`git -C .`). -/
theorem command_lines_and_timeouts (env : ProcEnv) (p : String) (hp : p ≠ "") :
    (run_formatter_linter env Option.none).2 =
      [⟨["black", "."], 10⟩, ⟨["pylint", "--ignore=.venv", "src"], 10⟩] ∧
    (run_formatter_linter env (Option.some p)).2 =
      [⟨["black", p], 10⟩, ⟨["pylint", "--ignore=.venv", p], 10⟩] ∧
    (run_unit_tests env Option.none).2 =
      [⟨["python", "-m", "unittest", "discover", "-s", "tests"], 30⟩] ∧
    (run_unit_tests env (Option.some p)).2 =
      [⟨["python", "-m", "unittest", "discover", "-s", p], 30⟩] ∧
    (check_git_status env).2 = [⟨["git", "-C", ".", "status", "--porcelain"], 10⟩] := by
  refine ⟨rfl, ?_, rfl, ?_, rfl⟩
  · simp [run_formatter_linter, blackCmd, pylintCmd, orDefault, hp]
  · simp [run_unit_tests, unittestCmd, orDefault, hp]

/-- C9 (witness): the command-line theorem at the explicit path `custom`. -/
theorem command_lines_and_timeouts_witness :
    (run_formatter_linter quietEnv Option.none).2 =
      [⟨["black", "."], 10⟩, ⟨["pylint", "--ignore=.venv", "src"], 10⟩] ∧
    (run_formatter_linter quietEnv (Option.some "custom")).2 =
      [⟨["black", "custom"], 10⟩, ⟨["pylint", "--ignore=.venv", "custom"], 10⟩] ∧
    (run_unit_tests quietEnv Option.none).2 =
      [⟨["python", "-m", "unittest", "discover", "-s", "tests"], 30⟩] ∧
    (run_unit_tests quietEnv (Option.some "custom")).2 =
      [⟨["python", "-m", "unittest", "discover", "-s", "custom"], 30⟩] ∧
    (check_git_status quietEnv).2 = [⟨["git", "-C", ".", "status", "--porcelain"], 10⟩] :=
  command_lines_and_timeouts quietEnv "custom" (by decide)

/-- C10 (confirmed): when both black and pylint start and terminate normally,
the formatter/linter outcome has `success=true` iff neither combined
stdout+stderr text contains the substring `"Error"`. -/
theorem formatter_success_iff_no_error (env : ProcEnv) (path : Option String)
    (bo be po pe : String) (brc prc : Int)
    (hb : env (blackCmd path) = .completed bo be brc)
    (hp : env (pylintCmd path) = .completed po pe prc) :
    ((run_formatter_linter env path).1).success = true ↔
      ¬ ContainsText (bo ++ be) "Error" ∧ ¬ ContainsText (po ++ pe) "Error" := by
  simp only [run_formatter_linter, hb, hp]
  rw [← pyContains_eq_false_iff, ← pyContains_eq_false_iff]
  cases hc1 : pyContains (bo ++ be) "Error" <;>
    cases hc2 : pyContains (po ++ pe) "Error" <;> simp [hc1, hc2]

/-- C10 (witness): the equivalence at an environment whose two tool outputs
are empty. -/
theorem formatter_success_iff_no_error_witness :
    ((run_formatter_linter quietEnv Option.none).1).success = true ↔
      ¬ ContainsText ("" ++ "") "Error" ∧ ¬ ContainsText ("" ++ "") "Error" :=
  formatter_success_iff_no_error quietEnv Option.none "" "" "" "" 0 0 rfl rfl

end DevTools
